import Mathlib

/-!
# Verification of the Vozi backend (main.py / services.py)

A shallow embedding of the Vozi backend's decision logic in Lean 4.

The repository is a FastAPI application (`main.py`) delegating to a
services layer (`services.py`).  The external capabilities (yt-dlp,
the YouTube captions API, and the hosted Gemini model) are modelled as
environments supplying the outcome of each external call; the local
file system is modelled explicitly as a state threaded through the
functions (local file input/output is modelled as reliable).  Python
strings are modelled as Lean `String`s; file-system paths are modelled
as `List Char` to keep the character-level manipulations of the source
(`startswith`, `replace`, `os.path.dirname`, `os.path.splitext`)
transparent.  Python floats (caption start times) are modelled as
rationals, `int()` as truncation toward zero, `//` and `%` on ints as
floor division and floor modulus.
-/

namespace Vozi

/-! ## Python primitive helpers -/

/-- Python `int(x)` on a float modelled as a rational: truncation toward zero. -/
def pyInt (q : ℚ) : Int := if 0 ≤ q then ⌊q⌋ else -⌊-q⌋

/-- Python `a // b` on integers: floor division. -/
def pyDiv (a b : Int) : Int := Int.fdiv a b

/-- Python `a % b` on integers: remainder with the divisor's sign. -/
def pyMod (a b : Int) : Int := Int.fmod a b

/-- Python `f"{n:02d}"`: decimal rendering left-padded with `0` to width 2. -/
def pad2 (n : Int) : String :=
  let s := toString n
  if s.length < 2 then "0" ++ s else s

/-! ## Transcript entries and the caption formatter (services.py 139-145)

An entry of a caption transcript as returned by the captions capability
(`YouTubeTranscriptApi.get_transcript`): a start time in seconds (a float,
modelled as a rational) and the caption text. -/

structure TranscriptEntry where
  start : ℚ
  text : String
deriving DecidableEq

/-- services.py 140-145: one formatted line of the caption fallback transcript:
`timestamp = int(entry['start']); minutes = timestamp // 60;
seconds = timestamp % 60;` rendered as `f"[{minutes:02d}:{seconds:02d}] {text}\n"`. -/
def formatEntry (e : TranscriptEntry) : String :=
  let timestamp := pyInt e.start
  let minutes := pyDiv timestamp 60
  let seconds := pyMod timestamp 60
  "[" ++ pad2 minutes ++ ":" ++ pad2 seconds ++ "] " ++ e.text ++ "\n"

/-- services.py 139-145: `formatted_text` accumulated over the entries
(`formatted_text += f"..."` starting from the empty string). -/
def formatTranscript (entries : List TranscriptEntry) : String :=
  entries.foldl (fun acc e => acc ++ formatEntry e) ""

/-! ## extract_video_id (services.py 67-91)

`re.search` of the three patterns
`(?:youtube\.com\/watch\?v=|youtu\.be\/)([^&\?\/]+)`,
`youtube\.com\/embed\/([^&\?\/]+)`, `youtube\.com\/v\/([^&\?\/]+)`, in
order.  Each pattern is a literal followed by a non-empty capture of
characters outside `&?/`; `re.search` matches at the leftmost position,
trying the alternatives of the first pattern in order at each position. -/

/-- The character class `[^&\?\/]` of the capture groups, complemented. -/
def capDelim (c : Char) : Bool := c == '&' || c == '?' || c == '/'

/-- At the current position, try each alternative literal in order: the
literal must match here and be followed by a non-empty capture. -/
def tryAlts (alts : List (List Char)) (s : List Char) : Option (List Char) :=
  alts.findSome? (fun lit =>
    if lit.isPrefixOf s then
      let cap := (s.drop lit.length).takeWhile (fun c => !capDelim c)
      if cap.isEmpty then none else some cap
    else none)

/-- `re.search` over positions left to right. -/
def searchAlts (alts : List (List Char)) : List Char → Option (List Char)
  | [] => none
  | c :: rest =>
    match tryAlts alts (c :: rest) with
    | some cap => some cap
    | none => searchAlts alts rest

/-- services.py 67-91: returns the captured video id, or `none` for the
`ValueError` raised when no pattern matches. -/
def extract_video_id (url : String) : Option String :=
  match searchAlts ["youtube.com/watch?v=".data, "youtu.be/".data] url.data with
  | some cap => some (String.mk cap)
  | none =>
  match searchAlts ["youtube.com/embed/".data] url.data with
  | some cap => some (String.mk cap)
  | none =>
  match searchAlts ["youtube.com/v/".data] url.data with
  | some cap => some (String.mk cap)
  | none => none

/-! ## YOUTUBE_URL_REGEX (main.py 58-59)

`re.match(r'^(https?://)?(www\.)?(youtube\.com|youtu\.be)/.+$', url)`.
The optional groups are deterministic here (no backtracking can change
the outcome: after stripping a matched `https?://` or `www.` the
remainder can only match the host alternatives if the strip was right,
since the hosts start with `y`), `.` excludes `'\n'`, and `$` matches at
the end of the string or before a single trailing `'\n'`. -/

def youtubeURLMatches (url : String) : Bool :=
  let s := url.data
  let s1 := if ("https://".data).isPrefixOf s then s.drop 8
            else if ("http://".data).isPrefixOf s then s.drop 7
            else s
  let s2 := if ("www.".data).isPrefixOf s1 then s1.drop 4 else s1
  let rest :=
    if ("youtube.com/".data).isPrefixOf s2 then some (s2.drop 12)
    else if ("youtu.be/".data).isPrefixOf s2 then some (s2.drop 9)
    else none
  match rest with
  | none => false
  | some r =>
    let r' := if r.getLast? == some '\n' then r.dropLast else r
    !r'.isEmpty && r'.all (fun c => !(c == '\n'))

/-! ## Local file-system model

Paths are character lists.  The state records the directories and files
that exist; `nextId` drives the fresh names handed out by
`tempfile.mkdtemp` / `tempfile.NamedTemporaryFile` (modelled as
`/tmp/pytmp`, resp. `/tmp/pyupload`, followed by `nextId` copies of
`'x'`).  Local file input/output is modelled as reliable: the fallible
external calls are the network capabilities, supplied by environments. -/

abbrev MPath := List Char

structure FS where
  nextId : Nat
  dirs : List MPath
  files : List (MPath × String)
deriving DecidableEq

def emptyFS : FS := ⟨0, [], []⟩

/-- Name of the `n`-th fresh temporary directory. -/
def tmpDirName (n : Nat) : MPath := "/tmp/pytmp".data ++ List.replicate n 'x'

/-- Name stem of the `n`-th fresh temporary upload file. -/
def uploadBase (n : Nat) : MPath := "/tmp/pyupload".data ++ List.replicate n 'x'

/-- The `"TRANSCRIPT:"` marker prefixed to a transcript-fallback path
(services.py 268). -/
def markerStr : MPath := "TRANSCRIPT:".data

/-- The transcript file's name, `'transcript.txt'` (services.py 261). -/
def transcriptName : MPath := "transcript.txt".data

/-- The stem of yt-dlp's output template `'audio.%(ext)s'`
(services.py 186). -/
def audioBase : MPath := "audio.".data

/-- `tempfile.mkdtemp()`: create a fresh directory. -/
def mkdtemp (s : FS) : MPath × FS :=
  let d := tmpDirName s.nextId
  (d, { nextId := s.nextId + 1, dirs := d :: s.dirs, files := s.files })

/-- Write a file (creating or shadowing); reads see the newest write. -/
def writeFile (s : FS) (p : MPath) (content : String) : FS :=
  { s with files := (p, content) :: s.files }

/-- `os.remove`: drop a file. -/
def removeFile (s : FS) (p : MPath) : FS :=
  { s with files := s.files.filter (fun pc => !(pc.1 == p)) }

/-- `shutil.rmtree(d, ignore_errors=True)`: when `d` is an existing
directory, remove it and every file under it; otherwise no effect
(errors are ignored). -/
def rmtree (s : FS) (d : MPath) : FS :=
  if s.dirs.contains d then
    { s with dirs := s.dirs.filter (fun x => !(x == d)),
             files := s.files.filter (fun pc => !((d ++ ['/']).isPrefixOf pc.1)) }
  else s

def pathExistsFile (s : FS) (p : MPath) : Bool := s.files.any (fun pc => pc.1 == p)

def pathExistsDir (s : FS) (p : MPath) : Bool := s.dirs.contains p

/-- `os.path.exists`: a file or a directory. -/
def pathExists (s : FS) (p : MPath) : Bool := pathExistsFile s p || pathExistsDir s p

/-- `open(p).read()`: the content of the newest write to `p`, if any. -/
def readFile (s : FS) (p : MPath) : Option String :=
  (s.files.find? (fun pc => pc.1 == p)).map (fun pc => pc.2)

/-- `os.path.dirname` (posixpath): everything up to and after the last
`/` split; the head keeps a trailing `/` only when it is all slashes,
otherwise trailing slashes are stripped. -/
def dirname (p : MPath) : MPath :=
  let head := (p.reverse.dropWhile (fun c => !(c == '/'))).reverse
  if head.all (fun c => c == '/') then head
  else (head.reverse.dropWhile (fun c => c == '/')).reverse

/-- The extension part of `os.path.splitext`: from the last `.` of the
last path component, provided some earlier character of that component
is not a dot (leading dots do not start an extension). -/
def splitextExt (p : MPath) : MPath :=
  let rev := p.reverse
  let pre := rev.takeWhile (fun c => !(c == '.') && !(c == '/'))
  match rev.drop pre.length with
  | '.' :: rest =>
    let base := rest.takeWhile (fun c => !(c == '/'))
    if base.any (fun c => !(c == '.')) then '.' :: pre.reverse else []
  | _ => []

/-- Worker for `replaceAllAux`: while the counter is positive, the
current characters belong to an already-matched occurrence and are
dropped; at zero, a fresh occurrence of `pat` starts a new skip. -/
def replaceGo (pat : List Char) : Nat → List Char → List Char
  | _, [] => []
  | k + 1, _ :: rest => replaceGo pat k rest
  | 0, c :: rest =>
    if pat.isPrefixOf (c :: rest) then replaceGo pat (pat.length - 1) rest
    else c :: replaceGo pat 0 rest

/-- Python `s.replace(pat, "")` for a non-empty `pat`: remove every
(leftmost-first, non-overlapping) occurrence of `pat`. -/
def replaceAllAux (pat : List Char) (s : List Char) : List Char :=
  replaceGo pat 0 s

/-! ## External capability environments

The outcomes of the network calls a request makes, supplied up front:
`Except.error msg` models the call raising an exception whose `str` is
`msg`. -/

structure AcqEnv where
  /-- Outcome of the yt-dlp `extract_info(url, download=True)` +
  `prepare_filename` step: the error raised, or the extension of the
  downloaded file (`outtmpl` is `os.path.join(temp_dir, 'audio.%(ext)s')`). -/
  dlResult : Except String String
  /-- Whether yt-dlp actually materialised the downloaded file on disk
  (services.py 239 verifies this with `os.path.exists`). -/
  dlCreatesFile : Bool
  /-- `YouTubeTranscriptApi.get_transcript(video_id, languages=langs)`:
  the transcript entries, or the error raised. -/
  captions : String → List String → Except String (List TranscriptEntry)
  /-- `str` of the `NoTranscriptFound(video_id, ['en','es'], ...)`
  exception constructed at services.py 132 (third-party `__str__`,
  opaque to this repository). -/
  ntfStr : String → String

/-- services.py 116: `languages_to_try = [['en'], ['es'], ['en', 'es']]`. -/
def languages_to_try : List (List String) := [["en"], ["es"], ["en", "es"]]

/-- services.py 118-128: try each language list until a fetch succeeds
(`break` on success, `continue` on exception).  Returns the fetched data
(if any) and the number of captions-capability calls made. -/
def tryLangs (env : AcqEnv) (vid : String) :
    List (List String) → Option (List TranscriptEntry) × Nat
  | [] => (none, 0)
  | langs :: rest =>
    match env.captions vid langs with
    | .ok d => (some d, 1)
    | .error _ =>
      let r := tryLangs env vid rest
      (r.1, r.2 + 1)

/-- services.py 93-153, `get_youtube_transcript`: extract the video id
(a `ValueError` is caught by the generic handler and re-raised as
`"Failed to get transcript: ..."`); fetch captions trying the language
lists in order; an empty or absent result raises `NoTranscriptFound`,
caught and re-raised as `"No transcript available for this video: ..."`;
otherwise return the formatted transcript and a title.  The second
component counts captions-capability calls. -/
def get_youtube_transcript (env : AcqEnv) (url : String) :
    Except String (String × String) × Nat :=
  match extract_video_id url with
  | none =>
    (.error ("Failed to get transcript: Could not extract video ID from URL: " ++ url), 0)
  | some vid =>
    let r := tryLangs env vid languages_to_try
    match r.1 with
    | none | some [] =>
      (.error ("No transcript available for this video: " ++ env.ntfStr vid), r.2)
    | some entries =>
      (.ok (formatTranscript entries, "Video " ++ vid), r.2)

/-- Path of the file yt-dlp downloads into the `n`-th temp directory
(`ydl.prepare_filename(info)` under `outtmpl = temp_dir/audio.%(ext)s`). -/
def downloadedPath (n : Nat) (ext : String) : MPath :=
  tmpDirName n ++ '/' :: (audioBase ++ ext.data)

/-- Path of the transcript file written in the `n`-th temp directory
(services.py 261: `os.path.join(temp_dir, 'transcript.txt')`). -/
def transcriptPath (n : Nat) : MPath :=
  tmpDirName n ++ '/' :: transcriptName

/-- Outcome of `download_youtube_audio`: the returned path string or the
raised message, the file system afterwards, the temp directories created
during the call, and how often the fallback (`get_youtube_transcript`)
and the captions capability were invoked. -/
structure AcqOut where
  result : Except String MPath
  fs : FS
  createdDirs : List MPath
  gytCalls : Nat
  captionCalls : Nat

/-- services.py 274-278: the single composed error when both methods fail. -/
def composedErr (e : String) : String :=
  "Unable to process this YouTube video. The video may be restricted, private, or unavailable. Details: " ++ e

/-- services.py 247-278, the `except` branch of `download_youtube_audio`:
clean up the failed download's directory, then try the caption fallback;
on success write the transcript file in a fresh directory and return the
`TRANSCRIPT:`-marked path, otherwise raise the composed error built from
the step-2 failure `e` alone.  `createdDirs` lists only the directories
created inside this branch. -/
def acqFallback (env : AcqEnv) (url : String) (e : String) (temp_dir : MPath)
    (s : FS) : AcqOut :=
  let s1 := if !temp_dir.isEmpty && pathExists s temp_dir then rmtree s temp_dir else s
  let g := get_youtube_transcript env url
  match g.1 with
  | .ok tv =>
    let p := mkdtemp s1
    let tf := p.1 ++ '/' :: transcriptName
    let s3 := writeFile p.2 tf tv.1
    { result := .ok (markerStr ++ tf), fs := s3, createdDirs := [p.1],
      gytCalls := 1, captionCalls := g.2 }
  | .error _ =>
    { result := .error (composedErr e), fs := s1, createdDirs := [],
      gytCalls := 1, captionCalls := g.2 }

/-- services.py 155-278, `download_youtube_audio`: create a temp
directory, attempt the yt-dlp download, verify the file exists on disk
(raising `"Downloaded file not found after extraction"` when not), and
return its path; on any failure fall through to `acqFallback`. -/
def download_youtube_audio (env : AcqEnv) (url : String) (s0 : FS) : AcqOut :=
  let p := mkdtemp s0
  let temp_dir := p.1
  let s1 := p.2
  match env.dlResult with
  | .error e =>
    let o := acqFallback env url e temp_dir s1
    { o with createdDirs := temp_dir :: o.createdDirs }
  | .ok ext =>
    let downloaded_file := downloadedPath s0.nextId ext
    let s2 := if env.dlCreatesFile then writeFile s1 downloaded_file "AUDIO" else s1
    if pathExists s2 downloaded_file then
      { result := .ok downloaded_file, fs := s2, createdDirs := [temp_dir],
        gytCalls := 0, captionCalls := 0 }
    else
      let o := acqFallback env url "Downloaded file not found after extraction" temp_dir s2
      { o with createdDirs := temp_dir :: o.createdDirs }

/-! ## process_audio (services.py 299-381) -/

/-- The Gemini capability's behaviour during one `process_audio` call.
The unbounded 1-second polling loop is modelled by its eventual outcome:
either `get_file` raising during the loop, or the terminal (non
`"PROCESSING"`) state name reached. -/
structure GeminiEnv where
  upload : Except String Unit
  pollResult : Except String String
  generate : Except String String
  /-- Outcome of `audio_file.delete()` in the `finally` block; its
  failure is caught at services.py 380-381, logged, and discarded. -/
  deleteResult : Except String Unit

structure PAOut where
  result : Except String String
  deleteAttempted : Bool

/-- services.py 299-381, `process_audio`: upload, poll to a terminal
state (a `"FAILED"` state raises `"Gemini audio processing failed"`),
generate; the `finally` block attempts `audio_file.delete()` whenever
the upload returned a handle, and a failure of the deletion itself is
caught and discarded, leaving the primary outcome untouched (which is
why `deleteResult` does not occur in the outcome). -/
def process_audio (env : GeminiEnv) : PAOut :=
  match env.upload with
  | .error e => { result := .error e, deleteAttempted := false }
  | .ok _ =>
    match env.pollResult with
    | .error e => { result := .error e, deleteAttempted := true }
    | .ok st =>
      if st = "FAILED" then
        { result := .error "Gemini audio processing failed", deleteAttempted := true }
      else
        match env.generate with
        | .ok t => { result := .ok t, deleteAttempted := true }
        | .error e => { result := .error e, deleteAttempted := true }

/-! ## HTTP endpoints (main.py) -/

/-- An endpoint's HTTP outcome: a JSON object with a single field, or an
`HTTPException(status_code, detail)`. -/
inductive Resp where
  | json (field : String) (value : String) : Resp
  | httpError (status : Nat) (detail : String) : Resp
deriving DecidableEq

def urlRequiredMsg : String := "'url' field is required in request body"

def invalidUrlMsg : String := "Invalid YouTube URL. Supported formats: youtube.com, youtu.be"

def textRequiredMsg : String := "'text' field is required in request body"

/-- main.py 117-163, `analyze_endpoint`: `data.get("text")` missing or
empty (falsy) gives 400 before `analyze_text` is consulted; otherwise
`analyze_text`'s outcome (the environment `analysis`) is returned as
`{"analysis": ...}` or mapped to a 500.  The second component counts
`analyze_text` invocations. -/
def analyze_endpoint (analysis : Except String String) (data : Option String) :
    Resp × Nat :=
  match data with
  | none => (.httpError 400 textRequiredMsg, 0)
  | some t =>
    if t = "" then (.httpError 400 textRequiredMsg, 0)
    else
      match analysis with
      | .ok a => (.json "analysis" a, 1)
      | .error e => (.httpError 500 e, 1)

/-- main.py 111-115, the `finally` block of `transcribe_endpoint`:
remove the temporary upload file if it exists. -/
def transcribeFinally (s : FS) (p : MPath) : FS :=
  if pathExists s p then removeFile s p else s

/-- main.py 65-115, `transcribe_endpoint`: save the upload to a fresh
temporary file preserving the original extension, transcribe it (the
environment `tr` is `transcribe_audio`'s outcome), map success to
`{"transcription": ...}` and any exception to a 500; the `finally`
block removes the temporary file.  Returns the response, the final file
system, and the temporary path used. -/
def transcribe_endpoint (tr : Except String String) (filename : String)
    (content : String) (s0 : FS) : Resp × FS × MPath :=
  let p := uploadBase s0.nextId ++ splitextExt filename.data
  let s1 : FS := { nextId := s0.nextId + 1, dirs := s0.dirs,
                   files := (p, content) :: s0.files }
  match tr with
  | .ok t => (.json "transcription" t, transcribeFinally s1 p, p)
  | .error e => (.httpError 500 e, transcribeFinally s1 p, p)

structure YtEnv where
  acq : AcqEnv
  /-- Outcome of `transcribe_audio(audio_file_path)` when reached. -/
  transcribeResult : Except String String

/-- Which capabilities a `/api/transcribe-youtube` request invoked, and
how often. -/
structure Trace where
  dlCalls : Nat
  gytCalls : Nat
  captionCalls : Nat
  transcribeCalls : Nat
deriving DecidableEq

structure YtOut where
  resp : Resp
  fs : FS
  createdDirs : List MPath
  trace : Trace

/-- `str` of the `FileNotFoundError` raised if the transcript file were
missing at main.py 217 (unreachable on the model's reliable local file
system). -/
def readFailMsg : String := "[Errno 2] No such file or directory"

/-- main.py 233-243, the `finally` block of `transcribe_youtube_endpoint`:
when `audio_file_path` was set, strip the `TRANSCRIPT:` marker, and if
the file exists remove the temporary directory containing it. -/
def ytFinally (audio_file_path : Option MPath) (s : FS) : FS :=
  match audio_file_path with
  | none => s
  | some p =>
    let fp := if markerStr.isPrefixOf p
              then replaceAllAux markerStr p else p
    if pathExists s fp then
      let td := dirname fp
      if !td.isEmpty && pathExists s td then rmtree s td else s
    else s

/-- main.py 165-243, `transcribe_youtube_endpoint`: missing or empty
`url` gives 400; a url rejected by `YOUTUBE_URL_REGEX` gives 400; both
before `download_youtube_audio` runs.  Otherwise acquire; a
`TRANSCRIPT:`-marked result is read back from disk and returned
directly, an audio path is transcribed; any raised exception maps to a
500 with its message; the `finally` block removes the temporary
directory of the returned artifact. -/
def transcribe_youtube_endpoint (env : YtEnv) (data : Option String) (s0 : FS) :
    YtOut :=
  match data with
  | none =>
    { resp := .httpError 400 urlRequiredMsg, fs := s0, createdDirs := [],
      trace := ⟨0, 0, 0, 0⟩ }
  | some url =>
    if url = "" then
      { resp := .httpError 400 urlRequiredMsg, fs := s0, createdDirs := [],
        trace := ⟨0, 0, 0, 0⟩ }
    else if !youtubeURLMatches url then
      { resp := .httpError 400 invalidUrlMsg, fs := s0, createdDirs := [],
        trace := ⟨0, 0, 0, 0⟩ }
    else
      let o := download_youtube_audio env.acq url s0
      match o.result with
      | .error e =>
        { resp := .httpError 500 e, fs := ytFinally none o.fs,
          createdDirs := o.createdDirs,
          trace := ⟨1, o.gytCalls, o.captionCalls, 0⟩ }
      | .ok path =>
        if markerStr.isPrefixOf path then
          let tf := replaceAllAux markerStr path
          match readFile o.fs tf with
          | some content =>
            { resp := .json "transcription" content,
              fs := ytFinally (some path) o.fs, createdDirs := o.createdDirs,
              trace := ⟨1, o.gytCalls, o.captionCalls, 0⟩ }
          | none =>
            { resp := .httpError 500 readFailMsg,
              fs := ytFinally (some path) o.fs, createdDirs := o.createdDirs,
              trace := ⟨1, o.gytCalls, o.captionCalls, 0⟩ }
        else
          match env.transcribeResult with
          | .ok t =>
            { resp := .json "transcription" t,
              fs := ytFinally (some path) o.fs, createdDirs := o.createdDirs,
              trace := ⟨1, o.gytCalls, o.captionCalls, 1⟩ }
          | .error e =>
            { resp := .httpError 500 e,
              fs := ytFinally (some path) o.fs, createdDirs := o.createdDirs,
              trace := ⟨1, o.gytCalls, o.captionCalls, 1⟩ }

/-! ## Helper lemmas -/

lemma isPrefixOf_append_self : ∀ (l t : List Char), l.isPrefixOf (l ++ t) = true
  | [], _ => by simp
  | c :: l, t => by simp [isPrefixOf_append_self l t]

lemma replaceGo_skip (pat : List Char) :
    ∀ (l s : List Char), replaceGo pat l.length (l ++ s) = replaceGo pat 0 s
  | [], _ => rfl
  | c :: l, s => by
    simpa [replaceGo] using replaceGo_skip pat l s

lemma replaceGo_zero_of_no_head (p0 : Char) (pt : List Char) :
    ∀ (s : List Char), (∀ c ∈ s, c ≠ p0) → replaceGo (p0 :: pt) 0 s = s
  | [], _ => rfl
  | c :: rest, h => by
    have hc : (p0 == c) = false := by
      have := h c (by simp)
      simp [BEq.comm]
      exact fun hh => (this hh.symm).elim
    have hrest := replaceGo_zero_of_no_head p0 pt rest (fun x hx => h x (by simp [hx]))
    simp [replaceGo, List.isPrefixOf_cons₂, hc, hrest]

lemma replaceGo_zero_append (p0 : Char) (pt s : List Char) :
    replaceGo (p0 :: pt) 0 ((p0 :: pt) ++ s) = replaceGo (p0 :: pt) 0 s := by
  have h1 : (p0 :: pt) ++ s = p0 :: (pt ++ s) := rfl
  have h2 : (p0 :: pt).isPrefixOf (p0 :: (pt ++ s)) = true := by
    simp [isPrefixOf_append_self]
  rw [h1]
  show (if (p0 :: pt).isPrefixOf (p0 :: (pt ++ s)) then
          replaceGo (p0 :: pt) ((p0 :: pt).length - 1) (pt ++ s)
        else p0 :: replaceGo (p0 :: pt) 0 (pt ++ s)) = _
  rw [h2, if_pos rfl]
  simpa using replaceGo_skip (p0 :: pt) pt s

/-- Stripping the `TRANSCRIPT:` marker from a marked path recovers the
path, provided the path itself contains no `'T'`. -/
lemma replaceAllAux_marker (s : List Char) (h : ∀ c ∈ s, c ≠ 'T') :
    replaceAllAux markerStr (markerStr ++ s) = s := by
  have hd : markerStr = 'T' :: "RANSCRIPT:".data := rfl
  unfold replaceAllAux
  rw [hd, replaceGo_zero_append, replaceGo_zero_of_no_head 'T' ("RANSCRIPT:".data) s h]

lemma tmpDirName_no_T (n : Nat) : ∀ c ∈ tmpDirName n, c ≠ 'T' := by
  intro c hc
  unfold tmpDirName at hc
  rcases List.mem_append.mp hc with h | h
  · exact (by decide : ∀ c ∈ "/tmp/pytmp".data, c ≠ 'T') c h
  · rcases List.eq_of_mem_replicate h with rfl
    decide

lemma transcriptPath_no_T (n : Nat) :
    ∀ c ∈ tmpDirName n ++ '/' :: transcriptName, c ≠ 'T' := by
  intro c hc
  rcases List.mem_append.mp hc with h | h
  · exact tmpDirName_no_T n c h
  · rcases List.mem_cons.mp h with rfl | h
    · decide
    · exact (by decide : ∀ c ∈ transcriptName, c ≠ 'T') c h

lemma dirname_append_of_ne (d f : MPath) (c : Char) (rest : MPath)
    (hd : d.reverse = c :: rest) (hc : (c == '/') = false)
    (hf : ∀ x ∈ f, (x == '/') = false) :
    dirname (d ++ '/' :: f) = d := by
  have hrev : (d ++ '/' :: f).reverse = f.reverse ++ '/' :: d.reverse := by
    simp
  have h1 : (f.reverse ++ '/' :: d.reverse).dropWhile (fun x => !(x == '/'))
      = '/' :: d.reverse := by
    rw [List.dropWhile_append_of_pos (by
      intro a ha
      simp only [List.mem_reverse] at ha
      simp [hf a ha])]
    simp
  have hcd : c ∈ d := by
    have : c ∈ d.reverse := by rw [hd]; simp
    simpa using this
  have h2 : (('/' :: d.reverse).reverse).all (fun x => x == '/') = false := by
    rw [Bool.eq_false_iff]
    intro hall
    have := List.all_eq_true.mp hall c (by simp [hcd])
    rw [hc] at this
    exact Bool.false_ne_true this
  unfold dirname
  dsimp only
  rw [hrev, h1, h2]
  simp only [Bool.false_eq_true, if_false, List.reverse_reverse]
  rw [List.dropWhile_cons_of_pos (by simp), hd,
      List.dropWhile_cons_of_neg (by simp [hc]), ← hd, List.reverse_reverse]

lemma replicate_append_comm (m : Nat) (x : Char) (l : List Char) :
    List.replicate m x ++ x :: l = x :: (List.replicate m x ++ l) := by
  induction m with
  | zero => simp
  | succ k ih => simp [List.replicate_succ, ih]

/-- `dirname` of a file inside a model temp directory is that directory. -/
lemma dirname_tmpDir (n : Nat) (f : MPath) (hf : ∀ x ∈ f, (x == '/') = false) :
    dirname (tmpDirName n ++ '/' :: f) = tmpDirName n := by
  cases n with
  | zero =>
    exact dirname_append_of_ne _ f 'p' ("mtyp/pmt/".data) (by decide) (by decide) hf
  | succ m =>
    apply dirname_append_of_ne _ f 'x' (List.replicate m 'x' ++ ("/tmp/pytmp".data).reverse)
    · rw [show tmpDirName (m + 1) = "/tmp/pytmp".data ++ List.replicate (m + 1) 'x' from rfl,
        List.reverse_append, List.reverse_replicate, List.replicate_succ, List.cons_append]
    · decide
    · exact hf

lemma contains_filterNe (l : List MPath) (d : MPath) :
    (l.filter (fun x => !(x == d))).contains d = false := by
  simp

lemma anyKey_filterNe (l : List (MPath × String)) (p : MPath) :
    (l.filter (fun pc => !(pc.1 == p))).any (fun pc => pc.1 == p) = false := by
  simp

lemma contains_filter_of_not (l : List MPath) (q : MPath → Bool) (d : MPath)
    (h : l.contains d = false) : (l.filter q).contains d = false := by
  simp only [List.contains_eq_any_beq, List.any_eq_false] at h ⊢
  intro x hx
  exact h x (List.mem_filter.mp hx).1

lemma tmpDirName_cons (n : Nat) :
    tmpDirName n = '/' :: ("tmp/pytmp".data ++ List.replicate n 'x') := rfl

lemma tmpDirName_isEmpty (n : Nat) : (tmpDirName n).isEmpty = false := rfl

lemma tmpDirName_length (n : Nat) : (tmpDirName n).length = 10 + n := by
  simp [tmpDirName]
  omega

lemma tmpDirName_beq_of_ne (m n : Nat) (h : m ≠ n) :
    (tmpDirName m == tmpDirName n) = false := by
  rw [beq_eq_false_iff_ne]
  intro hh
  have := congrArg List.length hh
  rw [tmpDirName_length, tmpDirName_length] at this
  omega

lemma append_cons_ne_self (d : MPath) (c : Char) (f : MPath) : (d ++ c :: f) ≠ d := by
  intro h
  have := congrArg List.length h
  simp at this

lemma marker_not_tmp (n : Nat) (r : MPath) :
    markerStr.isPrefixOf (tmpDirName n ++ r) = false := by
  rw [show tmpDirName n ++ r = '/' :: ("tmp/pytmp".data ++ List.replicate n 'x' ++ r) by
    simp [tmpDirName]]
  rfl

/-- Characterisation of the fallback branch of `download_youtube_audio`
(services.py 247-278), for a state whose newest directory is the failed
download's `temp_dir`: either the caption fallback fails and the branch
raises the composed error after removing `temp_dir`, or it succeeds and
the branch writes the transcript into a second fresh directory and
returns the marked path. -/
lemma acqFallback_spec (env : AcqEnv) (url e : String) (n : Nat) (ds : List MPath)
    (s : FS) (hdirs : s.dirs = tmpDirName n :: ds) (hnext : s.nextId = n + 1) :
    (∃ te, (get_youtube_transcript env url).1 = .error te ∧
      acqFallback env url e (tmpDirName n) s =
        { result := .error (composedErr e), fs := rmtree s (tmpDirName n),
          createdDirs := [], gytCalls := 1,
          captionCalls := (get_youtube_transcript env url).2 }) ∨
    (∃ tv, (get_youtube_transcript env url).1 = .ok tv ∧
      acqFallback env url e (tmpDirName n) s =
        { result := .ok (markerStr ++
            (tmpDirName (n + 1) ++ '/' :: transcriptName)),
          fs := writeFile (mkdtemp (rmtree s (tmpDirName n))).2
            (tmpDirName (n + 1) ++ '/' :: transcriptName) tv.1,
          createdDirs := [tmpDirName (n + 1)], gytCalls := 1,
          captionCalls := (get_youtube_transcript env url).2 }) := by
  have hguard : (!(tmpDirName n).isEmpty && pathExists s (tmpDirName n)) = true := by
    rw [tmpDirName_isEmpty]
    simp [pathExists, pathExistsDir, hdirs]
  have hnext' : (rmtree s (tmpDirName n)).nextId = n + 1 := by
    unfold rmtree
    split <;> simp [hnext]
  rcases hg : (get_youtube_transcript env url).1 with te | tv
  · refine Or.inl ⟨te, rfl, ?_⟩
    unfold acqFallback
    rw [hguard]
    simp only [if_true, hg]
  · refine Or.inr ⟨tv, rfl, ?_⟩
    unfold acqFallback
    rw [hguard]
    simp only [if_true, hg]
    rw [show (mkdtemp (rmtree s (tmpDirName n))).1
          = tmpDirName (n + 1) by simp [mkdtemp, hnext']]

/-- The file system right after the yt-dlp step reported success for
extension `ext`: the fresh temp directory, plus the downloaded file when
yt-dlp materialised it. -/
def dlStaged (env : AcqEnv) (s0 : FS) (ext : String) : FS :=
  if env.dlCreatesFile then
    writeFile (mkdtemp s0).2 (downloadedPath s0.nextId ext) "AUDIO"
  else (mkdtemp s0).2

lemma mkdtemp_snd_dirs (s0 : FS) : ((mkdtemp s0).2).dirs = tmpDirName s0.nextId :: s0.dirs := rfl

lemma mkdtemp_snd_nextId (s0 : FS) : ((mkdtemp s0).2).nextId = s0.nextId + 1 := rfl

lemma dlStaged_dirs (env : AcqEnv) (s0 : FS) (ext : String) :
    (dlStaged env s0 ext).dirs = tmpDirName s0.nextId :: s0.dirs := by
  unfold dlStaged
  split <;> rfl

lemma dlStaged_nextId (env : AcqEnv) (s0 : FS) (ext : String) :
    (dlStaged env s0 ext).nextId = s0.nextId + 1 := by
  unfold dlStaged
  split <;> rfl

lemma download_ok_exists (env : AcqEnv) (url : String) (s0 : FS) (ext : String)
    (hdl : env.dlResult = Except.ok ext)
    (hex : pathExists (dlStaged env s0 ext) (downloadedPath s0.nextId ext) = true) :
    download_youtube_audio env url s0 =
      { result := .ok (downloadedPath s0.nextId ext), fs := dlStaged env s0 ext,
        createdDirs := [tmpDirName s0.nextId], gytCalls := 0, captionCalls := 0 } := by
  unfold dlStaged at hex ⊢
  simp only [mkdtemp] at hex
  simp only [download_youtube_audio, mkdtemp, hdl, hex, if_true]

lemma download_ok_missing (env : AcqEnv) (url : String) (s0 : FS) (ext : String)
    (hdl : env.dlResult = Except.ok ext)
    (hex : pathExists (dlStaged env s0 ext) (downloadedPath s0.nextId ext) = false) :
    download_youtube_audio env url s0 =
      (let o := acqFallback env url "Downloaded file not found after extraction"
        (tmpDirName s0.nextId) (dlStaged env s0 ext)
       { o with createdDirs := tmpDirName s0.nextId :: o.createdDirs }) := by
  unfold dlStaged at hex ⊢
  simp only [mkdtemp] at hex
  simp only [download_youtube_audio, mkdtemp, hdl, hex, Bool.false_eq_true, if_false]

lemma download_err (env : AcqEnv) (url : String) (s0 : FS) (e : String)
    (hdl : env.dlResult = Except.error e) :
    download_youtube_audio env url s0 =
      (let o := acqFallback env url e (tmpDirName s0.nextId) (mkdtemp s0).2
       { o with createdDirs := tmpDirName s0.nextId :: o.createdDirs }) := by
  simp only [download_youtube_audio, hdl, mkdtemp]

lemma formatEntry_nat (t : ℕ) (txt : String) :
    formatEntry ⟨(t : ℚ), txt⟩ =
      "[" ++ pad2 ((t / 60 : ℕ) : Int) ++ ":" ++ pad2 ((t % 60 : ℕ) : Int) ++ "] "
        ++ txt ++ "\n" := by
  have h0 : (0 : ℚ) ≤ (t : ℚ) := by positivity
  have hf : pyInt (t : ℚ) = (t : Int) := by simp [pyInt, h0]
  have h1 : pyDiv (t : Int) 60 = ((t / 60 : ℕ) : Int) := by
    rw [pyDiv, show ((60 : Int)) = ((60 : ℕ) : Int) from rfl, ← Int.ofNat_fdiv]
  have h2 : pyMod (t : Int) 60 = ((t % 60 : ℕ) : Int) := by
    rw [pyMod, show ((60 : Int)) = ((60 : ℕ) : Int) from rfl, ← Int.ofNat_fmod]
  simp only [formatEntry]
  rw [hf, h1, h2]

lemma formatTranscript_eq_join (entries : List TranscriptEntry) :
    formatTranscript entries = String.join (entries.map formatEntry) := by
  simp [formatTranscript, String.join, List.foldl_map]

/-- Claim C5's wording, formalised from the spec sentence (not from the
source): entries at or past the hour boundary carry an hours field,
`[HH:MM:SS]`. -/
def specFormatEntry (e : TranscriptEntry) : String :=
  let t := pyInt e.start
  if 3600 ≤ t then
    "[" ++ pad2 (pyDiv t 3600) ++ ":" ++ pad2 (pyDiv (pyMod t 3600) 60) ++ ":"
      ++ pad2 (pyMod t 60) ++ "] " ++ e.text ++ "\n"
  else
    "[" ++ pad2 (pyDiv t 60) ++ ":" ++ pad2 (pyMod t 60) ++ "] " ++ e.text ++ "\n"

/-- C5 (counterexample): the claim says an entry with start time 3600 s
or more carries an hours field; the source formatter renders start=3661
as `[61:01]` — minutes only, not the `[01:01:01]` the claim requires. -/
theorem claim_C5_counterexample :
    formatEntry ⟨(3661 : ℚ), "hola"⟩ = "[61:01] hola\n" ∧
    specFormatEntry ⟨(3661 : ℚ), "hola"⟩ = "[01:01:01] hola\n" ∧
    formatEntry ⟨(3661 : ℚ), "hola"⟩ ≠ specFormatEntry ⟨(3661 : ℚ), "hola"⟩ := by
  refine ⟨?_, ?_, ?_⟩ <;> decide

/-- C5 (amended): every retrieved caption entry is formatted as
`[MM:SS] text` — minutes are the whole quotient by 60 and are NOT
wrapped into an hours field even at or past the hour boundary (start
3661 renders as `[61:01]`) — and the formatted entries are concatenated
with line breaks (each line ends in `"\n"`). -/
theorem claim_C5 :
    (∀ entries, formatTranscript entries = String.join (entries.map formatEntry)) ∧
    (∀ (t : ℕ) (txt : String), formatEntry ⟨(t : ℚ), txt⟩ =
      "[" ++ pad2 ((t / 60 : ℕ) : Int) ++ ":" ++ pad2 ((t % 60 : ℕ) : Int) ++ "] "
        ++ txt ++ "\n") ∧
    formatEntry ⟨(3661 : ℚ), "hey"⟩ = "[61:01] hey\n" :=
  ⟨formatTranscript_eq_join, formatEntry_nat, by decide⟩

/-- C6 (confirmed): the fallback timestamp formatter computes minutes as
the integer-truncated start time divided by 60 and seconds as the
remainder, zero-padded to two digits, without wrapping minutes into
hours; start=125 formats as `[02:05]` and start=3661 as `[61:01]`. -/
theorem claim_C6 :
    (∀ (t : ℕ) (txt : String), formatEntry ⟨(t : ℚ), txt⟩ =
      "[" ++ pad2 ((t / 60 : ℕ) : Int) ++ ":" ++ pad2 ((t % 60 : ℕ) : Int) ++ "] "
        ++ txt ++ "\n") ∧
    formatEntry ⟨(125 : ℚ), "x"⟩ = "[02:05] x\n" ∧
    formatEntry ⟨(3661 : ℚ), "y"⟩ = "[61:01] y\n" :=
  ⟨formatEntry_nat, by decide, by decide⟩

/-- C8 (confirmed): whenever the upload step of `process_audio` returned
a remote handle, deletion of the handle is attempted on every exit path,
and the outcome of the deletion itself (caught, logged and discarded at
services.py 380-381) never changes the primary result or error. -/
theorem claim_C8 (env : GeminiEnv) (h : env.upload = Except.ok ()) :
    (process_audio env).deleteAttempted = true ∧
    ∀ d, process_audio { env with deleteResult := d } = process_audio env := by
  obtain ⟨u, poll, gen, del⟩ := env
  simp only at h
  subst h
  refine ⟨?_, fun d => rfl⟩
  simp only [process_audio]
  rcases poll with e | st
  · rfl
  · by_cases hst : st = "FAILED" <;> rcases gen with e | t <;> simp [hst]

/-- Witness for C8 at a concrete environment whose deletion fails. -/
theorem claim_C8_witness :
    (process_audio ⟨.ok (), .ok "ACTIVE", .ok "text", .error "delete failed"⟩).deleteAttempted
        = true ∧
    ∀ d, process_audio { (⟨.ok (), .ok "ACTIVE", .ok "text", .error "delete failed"⟩ : GeminiEnv)
        with deleteResult := d }
      = process_audio ⟨.ok (), .ok "ACTIVE", .ok "text", .error "delete failed"⟩ :=
  claim_C8 ⟨.ok (), .ok "ACTIVE", .ok "text", .error "delete failed"⟩ rfl

/-- C9 (confirmed): `/api/analyze` returns 400 without consulting the
polishing capability when `text` is missing or empty; otherwise it
invokes it exactly once, returning `{"analysis": ...}` on success and a
500 carrying the exception's message on failure. -/
theorem claim_C9 (analysis : Except String String) (data : Option String) :
    ((data = none ∨ data = some "") →
      analyze_endpoint analysis data = (.httpError 400 textRequiredMsg, 0)) ∧
    (∀ t, data = some t → t ≠ "" →
      (analyze_endpoint analysis data).2 = 1 ∧
      (∀ a, analysis = .ok a →
        (analyze_endpoint analysis data).1 = .json "analysis" a) ∧
      (∀ e, analysis = .error e →
        (analyze_endpoint analysis data).1 = .httpError 500 e)) := by
  constructor
  · rintro (rfl | rfl)
    · rfl
    · rfl
  · rintro t rfl ht
    refine ⟨?_, ?_, ?_⟩
    · simp [analyze_endpoint, ht]
      rcases analysis with e | a <;> simp
    · rintro a rfl
      simp [analyze_endpoint, ht]
    · rintro e rfl
      simp [analyze_endpoint, ht]

/-- Witness for C9: a missing body field and a successful analysis. -/
theorem claim_C9_witness :
    analyze_endpoint (.ok "polished") none = (.httpError 400 textRequiredMsg, 0) ∧
    (analyze_endpoint (.ok "polished") (some "hi")).1 = .json "analysis" "polished" :=
  ⟨(claim_C9 (.ok "polished") none).1 (Or.inl rfl),
   ((claim_C9 (.ok "polished") (some "hi")).2 "hi" rfl (by decide)).2.1 "polished" rfl⟩

lemma acqFallback_gytCalls (env : AcqEnv) (url e : String) (td : MPath) (s : FS) :
    (acqFallback env url e td s).gytCalls = 1 := by
  unfold acqFallback
  rcases h : (get_youtube_transcript env url).1 with te | tv <;> simp [h]

/-- Concrete environments for witnesses. -/
def wCaptions : String → List String → Except String (List TranscriptEntry) :=
  fun _ _ => Except.error "no captions"

def wNtf : String → String := fun _ => "no transcripts found"

def wUrl : String := "https://www.youtube.com/watch?v=abc"

/-- C7 (confirmed): a request to `/api/transcribe-youtube` whose `url`
field is missing, empty, or rejected by `YOUTUBE_URL_REGEX` gets a 400
response before any acquisition work: the file system is untouched, no
temp directory is created, and neither yt-dlp, the fallback, the
captions capability, nor the transcription model is invoked. -/
theorem claim_C7 (env : YtEnv) (s0 : FS) (data : Option String)
    (h : data = none ∨ data = some "" ∨
      ∃ url, data = some url ∧ youtubeURLMatches url = false) :
    (∃ detail, (transcribe_youtube_endpoint env data s0).resp = .httpError 400 detail) ∧
    (transcribe_youtube_endpoint env data s0).trace = ⟨0, 0, 0, 0⟩ ∧
    (transcribe_youtube_endpoint env data s0).fs = s0 ∧
    (transcribe_youtube_endpoint env data s0).createdDirs = [] := by
  rcases h with rfl | rfl | ⟨url, rfl, hm⟩
  · exact ⟨⟨urlRequiredMsg, rfl⟩, rfl, rfl, rfl⟩
  · refine ⟨⟨urlRequiredMsg, ?_⟩, ?_, ?_, ?_⟩ <;> simp [transcribe_youtube_endpoint]
  · by_cases hu : url = ""
    · subst hu
      refine ⟨⟨urlRequiredMsg, ?_⟩, ?_, ?_, ?_⟩ <;> simp [transcribe_youtube_endpoint]
    · refine ⟨⟨invalidUrlMsg, ?_⟩, ?_, ?_, ?_⟩ <;>
        simp [transcribe_youtube_endpoint, hu, hm]

/-- Witness for C7: a non-YouTube URL is rejected with 400 and no calls. -/
theorem claim_C7_witness :
    (∃ detail, (transcribe_youtube_endpoint ⟨⟨.error "e", false, wCaptions, wNtf⟩, .ok "T"⟩
      (some "https://example.com/watch?v=a") emptyFS).resp = .httpError 400 detail) ∧
    (transcribe_youtube_endpoint ⟨⟨.error "e", false, wCaptions, wNtf⟩, .ok "T"⟩
      (some "https://example.com/watch?v=a") emptyFS).trace = ⟨0, 0, 0, 0⟩ ∧
    (transcribe_youtube_endpoint ⟨⟨.error "e", false, wCaptions, wNtf⟩, .ok "T"⟩
      (some "https://example.com/watch?v=a") emptyFS).fs = emptyFS ∧
    (transcribe_youtube_endpoint ⟨⟨.error "e", false, wCaptions, wNtf⟩, .ok "T"⟩
      (some "https://example.com/watch?v=a") emptyFS).createdDirs = [] :=
  claim_C7 _ emptyFS _ (Or.inr (Or.inr ⟨"https://example.com/watch?v=a", rfl, by decide⟩))

/-- C1 (confirmed): when the yt-dlp download succeeds and the downloaded
file exists on disk, `download_youtube_audio` returns that file's path
and the caption fallback is never entered (neither
`get_youtube_transcript` nor the captions capability is called); when
the reported download's file is missing on disk, the call is treated as
a failure and the fallback IS invoked. -/
theorem claim_C1 (env : AcqEnv) (url : String) (s0 : FS) (ext : String) :
    (env.dlResult = Except.ok ext → env.dlCreatesFile = true →
      (download_youtube_audio env url s0).result = .ok (downloadedPath s0.nextId ext) ∧
      (download_youtube_audio env url s0).gytCalls = 0 ∧
      (download_youtube_audio env url s0).captionCalls = 0) ∧
    (env.dlResult = Except.ok ext → env.dlCreatesFile = false →
      pathExistsFile s0 (downloadedPath s0.nextId ext) = false →
      pathExistsDir s0 (downloadedPath s0.nextId ext) = false →
      (download_youtube_audio env url s0).gytCalls = 1) := by
  constructor
  · intro hdl hcf
    have hex : pathExists (dlStaged env s0 ext) (downloadedPath s0.nextId ext) = true := by
      simp [dlStaged, hcf, pathExists, pathExistsFile, writeFile]
    rw [download_ok_exists env url s0 ext hdl hex]
    exact ⟨rfl, rfl, rfl⟩
  · intro hdl hcf hf hd
    have hne : ((downloadedPath s0.nextId ext) == tmpDirName s0.nextId) = false := by
      rw [beq_eq_false_iff_ne]
      exact append_cons_ne_self _ _ _
    have hex : pathExists (dlStaged env s0 ext) (downloadedPath s0.nextId ext) = false := by
      simp only [dlStaged, hcf, Bool.false_eq_true, if_false]
      simp only [pathExists, pathExistsFile, pathExistsDir, mkdtemp, List.contains_cons]
      simp only [pathExistsFile, pathExistsDir] at hf hd
      have hd' : downloadedPath s0.nextId ext ∉ s0.dirs := by simpa using hd
      simp [hf, hd', hne]
    rw [download_ok_missing env url s0 ext hdl hex]
    exact acqFallback_gytCalls env url _ _ _

/-- Witness for C1: a successful materialised download returns its path
without touching the fallback; the same download with the file missing
on disk enters the fallback. -/
theorem claim_C1_witness :
    ((download_youtube_audio ⟨.ok "m4a", true, wCaptions, wNtf⟩ wUrl emptyFS).result
        = .ok (downloadedPath 0 "m4a") ∧
      (download_youtube_audio ⟨.ok "m4a", true, wCaptions, wNtf⟩ wUrl emptyFS).gytCalls = 0 ∧
      (download_youtube_audio ⟨.ok "m4a", true, wCaptions, wNtf⟩ wUrl emptyFS).captionCalls = 0) ∧
    (download_youtube_audio ⟨.ok "m4a", false, wCaptions, wNtf⟩ wUrl emptyFS).gytCalls = 1 :=
  ⟨(claim_C1 ⟨.ok "m4a", true, wCaptions, wNtf⟩ wUrl emptyFS "m4a").1 rfl rfl,
   (claim_C1 ⟨.ok "m4a", false, wCaptions, wNtf⟩ wUrl emptyFS "m4a").2 rfl rfl
     (by decide) (by decide)⟩

lemma acqFallback_result_of_gyt_err (env : AcqEnv) (url e : String) (td : MPath)
    (s : FS) (te : String) (hg : (get_youtube_transcript env url).1 = .error te) :
    (acqFallback env url e td s).result = .error (composedErr e) := by
  unfold acqFallback
  simp only [hg]

lemma acqFallback_result_of_gyt_ok (env : AcqEnv) (url e : String) (td : MPath)
    (s : FS) (tv : String × String)
    (hg : (get_youtube_transcript env url).1 = .ok tv) :
    ∃ tf, (acqFallback env url e td s).result = .ok (markerStr ++ tf) := by
  unfold acqFallback
  simp only [hg]
  exact ⟨_, rfl⟩

/-- C3 (confirmed): when the download and the caption fallback both
fail, `download_youtube_audio` raises a single composed error — the
fixed sentence naming the platform-restriction possibility followed by
the step-2 failure detail `e`; the step-4 (caption) error does not occur
in it (the message depends only on `e`); the endpoint maps it to a 500
whose detail is exactly that message. -/
theorem claim_C3 (env : YtEnv) (url : String) (s0 : FS) (e te : String)
    (hdl : env.acq.dlResult = Except.error e)
    (hgyt : (get_youtube_transcript env.acq url).1 = Except.error te)
    (hu : url ≠ "") (hm : youtubeURLMatches url = true) :
    (download_youtube_audio env.acq url s0).result =
      Except.error ("Unable to process this YouTube video. The video may be restricted, private, or unavailable. Details: " ++ e) ∧
    (transcribe_youtube_endpoint env (some url) s0).resp =
      .httpError 500 ("Unable to process this YouTube video. The video may be restricted, private, or unavailable. Details: " ++ e) := by
  have hres : (download_youtube_audio env.acq url s0).result =
      Except.error (composedErr e) := by
    simp only [download_err env.acq url s0 e hdl]
    exact acqFallback_result_of_gyt_err env.acq url e _ _ te hgyt
  refine ⟨by rw [hres]; rfl, ?_⟩
  simp only [transcribe_youtube_endpoint, if_neg hu, hm, Bool.not_true,
    Bool.false_eq_true, if_false, hres]
  rfl

/-- C10 (confirmed): the endpoint regex accepts `https://youtube.com/abc`
although `extract_video_id` rejects it (`ValueError`, modelled as
`none`); for any URL without an extractable id, the caption fallback
necessarily fails with the wrapped `ValueError` message, so
`download_youtube_audio` can only return successfully via the primary
yt-dlp download. -/
theorem claim_C10 :
    youtubeURLMatches "https://youtube.com/abc" = true ∧
    extract_video_id "https://youtube.com/abc" = none ∧
    (∀ (env : AcqEnv) (url : String), extract_video_id url = none →
      (get_youtube_transcript env url).1 =
        Except.error ("Failed to get transcript: Could not extract video ID from URL: "
          ++ url)) ∧
    (∀ (env : AcqEnv) (url : String) (s0 : FS) (p : MPath),
      extract_video_id url = none →
      (download_youtube_audio env url s0).result = Except.ok p →
      ∃ ext, env.dlResult = Except.ok ext ∧ p = downloadedPath s0.nextId ext) := by
  refine ⟨by decide, by decide, ?_, ?_⟩
  · intro env url hx
    simp [get_youtube_transcript, hx]
  · intro env url s0 p hx hok
    have hgyt : (get_youtube_transcript env url).1 =
        Except.error ("Failed to get transcript: Could not extract video ID from URL: "
          ++ url) := by
      simp [get_youtube_transcript, hx]
    rcases hdl : env.dlResult with e | ext
    · rw [download_err env url s0 e hdl] at hok
      simp only [acqFallback_result_of_gyt_err env url e _ _ _ hgyt] at hok
      exact absurd hok (by simp)
    · by_cases hex : pathExists (dlStaged env s0 ext) (downloadedPath s0.nextId ext) = true
      · rw [download_ok_exists env url s0 ext hdl hex] at hok
        simp only [Except.ok.injEq] at hok
        exact ⟨ext, rfl, hok.symm⟩
      · have hex' : pathExists (dlStaged env s0 ext) (downloadedPath s0.nextId ext) = false :=
          by simpa using hex
        rw [download_ok_missing env url s0 ext hdl hex'] at hok
        simp only [acqFallback_result_of_gyt_err env url _ _ _ _ hgyt] at hok
        exact absurd hok (by simp)

/-- Witness for C10's quantified parts, at `https://youtube.com/abc`
with a succeeding download environment. -/
theorem claim_C10_witness :
    (get_youtube_transcript ⟨.ok "m4a", true, wCaptions, wNtf⟩ "https://youtube.com/abc").1 =
      Except.error ("Failed to get transcript: Could not extract video ID from URL: "
        ++ "https://youtube.com/abc") ∧
    ∃ ext, (⟨.ok "m4a", true, wCaptions, wNtf⟩ : AcqEnv).dlResult = Except.ok ext ∧
      downloadedPath 0 "m4a" = downloadedPath emptyFS.nextId ext :=
  ⟨claim_C10.2.2.1 ⟨.ok "m4a", true, wCaptions, wNtf⟩ "https://youtube.com/abc" (by decide),
   claim_C10.2.2.2 ⟨.ok "m4a", true, wCaptions, wNtf⟩ "https://youtube.com/abc" emptyFS
     (downloadedPath 0 "m4a") (by decide)
     (by rw [download_ok_exists ⟨.ok "m4a", true, wCaptions, wNtf⟩ "https://youtube.com/abc"
           emptyFS "m4a" rfl (by decide)]; rfl)⟩

/-- Witness for C3: both methods fail concretely; the 500 detail is the
composed message carrying the yt-dlp error. -/
theorem claim_C3_witness :
    (download_youtube_audio ⟨.error "bot check", false, wCaptions, wNtf⟩ wUrl emptyFS).result =
      Except.error ("Unable to process this YouTube video. The video may be restricted, private, or unavailable. Details: " ++ "bot check") ∧
    (transcribe_youtube_endpoint ⟨⟨.error "bot check", false, wCaptions, wNtf⟩, .ok "T"⟩
        (some wUrl) emptyFS).resp =
      .httpError 500 ("Unable to process this YouTube video. The video may be restricted, private, or unavailable. Details: " ++ "bot check") :=
  claim_C3 ⟨⟨.error "bot check", false, wCaptions, wNtf⟩, .ok "T"⟩ wUrl emptyFS
    "bot check" "No transcript available for this video: no transcripts found"
    rfl rfl (by decide) (by decide)

lemma readFile_write_self (s : FS) (p : MPath) (c : String) :
    readFile (writeFile s p c) p = some c := by
  simp [readFile, writeFile]

/-- C2 (confirmed): when the primary download fails and the caption
fetch succeeds, the `/api/transcribe-youtube` response's `transcription`
field is exactly the formatted caption transcript — the text written to
the transcript file and read back via the `TRANSCRIPT:` marker — and
the transcription model (`transcribe_audio`/`process_audio`) is never
consulted while handling the request. -/
theorem claim_C2 (env : YtEnv) (url : String) (s0 : FS) (e text title : String)
    (hdl : env.acq.dlResult = Except.error e)
    (hgyt : (get_youtube_transcript env.acq url).1 = Except.ok (text, title))
    (hu : url ≠ "") (hm : youtubeURLMatches url = true) :
    (transcribe_youtube_endpoint env (some url) s0).resp = .json "transcription" text ∧
    (transcribe_youtube_endpoint env (some url) s0).trace.transcribeCalls = 0 := by
  rcases acqFallback_spec env.acq url e s0.nextId s0.dirs (mkdtemp s0).2
      (mkdtemp_snd_dirs s0) (mkdtemp_snd_nextId s0) with ⟨te, hg, _⟩ | ⟨tv, hg, heq⟩
  · rw [hgyt] at hg
    exact absurd hg (by simp)
  · rw [hgyt] at hg
    simp only [Except.ok.injEq] at hg
    subst hg
    have hres : download_youtube_audio env.acq url s0 =
        { result := .ok (markerStr ++
            (tmpDirName (s0.nextId + 1) ++ '/' :: transcriptName)),
          fs := writeFile (mkdtemp (rmtree (mkdtemp s0).2 (tmpDirName s0.nextId))).2
            (tmpDirName (s0.nextId + 1) ++ '/' :: transcriptName) text,
          createdDirs := tmpDirName s0.nextId :: [tmpDirName (s0.nextId + 1)],
          gytCalls := 1, captionCalls := (get_youtube_transcript env.acq url).2 } := by
      rw [download_err env.acq url s0 e hdl]
      simp only [heq]
    have hpre : markerStr.isPrefixOf (markerStr ++
        (tmpDirName (s0.nextId + 1) ++ '/' :: transcriptName)) = true :=
      isPrefixOf_append_self _ _
    have hstrip : replaceAllAux markerStr (markerStr ++
        (tmpDirName (s0.nextId + 1) ++ '/' :: transcriptName)) =
        tmpDirName (s0.nextId + 1) ++ '/' :: transcriptName :=
      replaceAllAux_marker _ (transcriptPath_no_T (s0.nextId + 1))
    constructor <;>
      simp only [transcribe_youtube_endpoint, if_neg hu, hm, Bool.not_true,
        Bool.false_eq_true, if_false, hres, hpre, if_true, hstrip,
        readFile_write_self]

/-- Environment for the C2 witness: download fails, English captions
exist. -/
def wCapOk : String → List String → Except String (List TranscriptEntry) :=
  fun _ langs => if langs = ["en"] then .ok [⟨5, "hola"⟩] else .error "no"

/-- Witness for C2: the response is the formatted `[MM:SS]` caption
transcript and the transcription model records zero calls. -/
theorem claim_C2_witness :
    (transcribe_youtube_endpoint ⟨⟨.error "bot check", false, wCapOk, wNtf⟩, .ok "T"⟩
        (some wUrl) emptyFS).resp = .json "transcription" "[00:05] hola\n" ∧
    (transcribe_youtube_endpoint ⟨⟨.error "bot check", false, wCapOk, wNtf⟩, .ok "T"⟩
        (some wUrl) emptyFS).trace.transcribeCalls = 0 :=
  claim_C2 ⟨⟨.error "bot check", false, wCapOk, wNtf⟩, .ok "T"⟩ wUrl emptyFS
    "bot check" "[00:05] hola\n" "Video abc" rfl rfl (by decide) (by decide)

lemma rmtree_nextId (s : FS) (d : MPath) : (rmtree s d).nextId = s.nextId := by
  unfold rmtree
  split <;> rfl

lemma rmtree_dirs_of_contains (s : FS) (d : MPath) (h : s.dirs.contains d = true) :
    (rmtree s d).dirs = s.dirs.filter (fun x => !(x == d)) := by
  unfold rmtree
  rw [if_pos h]

lemma pathExistsDir_rmtree_self (s : FS) (d : MPath) :
    pathExistsDir (rmtree s d) d = false := by
  unfold rmtree pathExistsDir
  by_cases h : s.dirs.contains d = true
  · rw [if_pos h]
    exact contains_filterNe _ _
  · rw [if_neg h]
    simpa using h

/-- C4's youtube half for any run that enters the fallback branch of
`download_youtube_audio`: every created temp directory is gone from the
final file system. -/
lemma fallback_cleanup (env : YtEnv) (url : String) (s0 : FS) (e : String) (s' : FS)
    (hdirs : s'.dirs = tmpDirName s0.nextId :: s0.dirs)
    (hnext : s'.nextId = s0.nextId + 1)
    (hdy : download_youtube_audio env.acq url s0 =
      (let o := acqFallback env.acq url e (tmpDirName s0.nextId) s'
       { o with createdDirs := tmpDirName s0.nextId :: o.createdDirs }))
    (hu : url ≠ "") (hm : youtubeURLMatches url = true) :
    ∀ d ∈ (transcribe_youtube_endpoint env (some url) s0).createdDirs,
      pathExistsDir (transcribe_youtube_endpoint env (some url) s0).fs d = false := by
  have hcont : s'.dirs.contains (tmpDirName s0.nextId) = true := by
    simp [hdirs]
  rcases acqFallback_spec env.acq url e s0.nextId s0.dirs s' hdirs hnext
      with ⟨te, hg, heq⟩ | ⟨tv, hg, heq⟩
  · -- caption fallback also fails: only the first temp dir was created,
    -- and the services layer removed it before raising.
    have hdy2 : download_youtube_audio env.acq url s0 =
        { result := .error (composedErr e), fs := rmtree s' (tmpDirName s0.nextId),
          createdDirs := [tmpDirName s0.nextId], gytCalls := 1,
          captionCalls := (get_youtube_transcript env.acq url).2 } := by
      rw [hdy]
      simp only [heq]
    intro d hd
    simp only [transcribe_youtube_endpoint, if_neg hu, hm, Bool.not_true,
      Bool.false_eq_true, if_false, hdy2] at hd ⊢
    simp only [List.mem_singleton] at hd
    subst hd
    exact pathExistsDir_rmtree_self _ _
  · -- caption fallback succeeded: transcript dir written, endpoint
    -- removes it in its finally block; the first dir was already gone.
    have hdy2 : download_youtube_audio env.acq url s0 =
        { result := .ok (markerStr ++
            (tmpDirName (s0.nextId + 1) ++ '/' :: transcriptName)),
          fs := writeFile (mkdtemp (rmtree s' (tmpDirName s0.nextId))).2
            (tmpDirName (s0.nextId + 1) ++ '/' :: transcriptName) tv.1,
          createdDirs := [tmpDirName s0.nextId, tmpDirName (s0.nextId + 1)],
          gytCalls := 1, captionCalls := (get_youtube_transcript env.acq url).2 } := by
      rw [hdy]
      simp only [heq]
    have hpre : markerStr.isPrefixOf (markerStr ++
        (tmpDirName (s0.nextId + 1) ++ '/' :: transcriptName)) = true :=
      isPrefixOf_append_self _ _
    have hstrip : replaceAllAux markerStr (markerStr ++
        (tmpDirName (s0.nextId + 1) ++ '/' :: transcriptName)) =
        tmpDirName (s0.nextId + 1) ++ '/' :: transcriptName :=
      replaceAllAux_marker _ (transcriptPath_no_T (s0.nextId + 1))
    -- the file system produced by the service call
    set ofs : FS := writeFile (mkdtemp (rmtree s' (tmpDirName s0.nextId))).2
      (tmpDirName (s0.nextId + 1) ++ '/' :: transcriptName) tv.1 with hofs
    have hofs_dirs : ofs.dirs = tmpDirName (s0.nextId + 1) ::
        s'.dirs.filter (fun x => !(x == tmpDirName s0.nextId)) := by
      rw [hofs]
      show (mkdtemp (rmtree s' (tmpDirName s0.nextId))).2.dirs = _
      rw [mkdtemp_snd_dirs, rmtree_nextId, hnext,
        rmtree_dirs_of_contains s' (tmpDirName s0.nextId) hcont]
    have hexf : pathExists ofs (tmpDirName (s0.nextId + 1) ++ '/' :: transcriptName)
        = true := by
      rw [hofs]
      simp [pathExists, pathExistsFile, writeFile]
    have hdn : dirname (tmpDirName (s0.nextId + 1) ++ '/' :: transcriptName) =
        tmpDirName (s0.nextId + 1) :=
      dirname_tmpDir (s0.nextId + 1) transcriptName (by decide)
    have hexd : pathExists ofs (tmpDirName (s0.nextId + 1)) = true := by
      simp [pathExists, pathExistsDir, hofs_dirs]
    have hcont2 : ofs.dirs.contains (tmpDirName (s0.nextId + 1)) = true := by
      simp [hofs_dirs]
    have hfin : ytFinally (some (markerStr ++
        (tmpDirName (s0.nextId + 1) ++ '/' :: transcriptName))) ofs =
        rmtree ofs (tmpDirName (s0.nextId + 1)) := by
      unfold ytFinally
      simp only [hpre, if_true, hstrip, hexf, hdn, tmpDirName_isEmpty, Bool.not_false,
        hexd, Bool.and_self, if_true]
    have hfin_dirs : (rmtree ofs (tmpDirName (s0.nextId + 1))).dirs =
        (s'.dirs.filter (fun x => !(x == tmpDirName s0.nextId))).filter
          (fun x => !(x == tmpDirName (s0.nextId + 1))) := by
      rw [rmtree_dirs_of_contains _ _ hcont2, hofs_dirs]
      rw [List.filter_cons_of_neg (by simp)]
    have hread : readFile ofs (tmpDirName (s0.nextId + 1) ++ '/' :: transcriptName)
        = some tv.1 := by
      rw [hofs]
      exact readFile_write_self _ _ _
    intro d hd
    simp only [transcribe_youtube_endpoint, if_neg hu, hm, Bool.not_true,
      Bool.false_eq_true, if_false, hdy2, hpre, if_true, hstrip, hread] at hd
    simp only [transcribe_youtube_endpoint, if_neg hu, hm, Bool.not_true,
      Bool.false_eq_true, if_false, hdy2, hpre, if_true, hstrip, hread]
    rw [hfin]
    simp only [List.mem_cons, List.mem_singleton, List.not_mem_nil, or_false] at hd
    rcases hd with rfl | rfl
    · -- the first temp dir was filtered out inside the services layer
      unfold pathExistsDir
      rw [hfin_dirs]
      exact contains_filter_of_not _ _ _ (contains_filterNe _ _)
    · unfold pathExistsDir
      rw [rmtree_dirs_of_contains _ _ hcont2]
      exact contains_filterNe _ _

lemma transcribeFinally_removes (s : FS) (p : MPath) :
    pathExistsFile (transcribeFinally s p) p = false := by
  unfold transcribeFinally
  by_cases h : pathExists s p = true
  · rw [if_pos h]
    simp only [pathExistsFile, removeFile]
    exact anyKey_filterNe _ _
  · rw [if_neg h]
    have h2 : pathExists s p = false := by simpa using h
    unfold pathExists at h2
    exact (Bool.or_eq_false_iff.mp h2).1

/-- C4 (confirmed): no temporary artifact outlives the request that
created it.  After any `/api/transcribe` request the saved temporary
upload file no longer exists; after any `/api/transcribe-youtube`
request — success, fallback success, or double failure — every
temporary directory created during acquisition no longer exists.  (The
side condition says only that a yt-dlp extension contains no path
separator.) -/
theorem claim_C4 :
    (∀ (tr : Except String String) (filename content : String) (s0 : FS),
      pathExistsFile (transcribe_endpoint tr filename content s0).2.1
        (transcribe_endpoint tr filename content s0).2.2 = false) ∧
    (∀ (env : YtEnv) (data : Option String) (s0 : FS),
      (∀ ext, env.acq.dlResult = Except.ok ext → ∀ c ∈ ext.data, (c == '/') = false) →
      ∀ d ∈ (transcribe_youtube_endpoint env data s0).createdDirs,
        pathExistsDir (transcribe_youtube_endpoint env data s0).fs d = false) := by
  constructor
  · intro tr fn content s0
    rcases tr with e | t <;>
      · simp only [transcribe_endpoint]
        exact transcribeFinally_removes _ _
  · intro env data s0 hext d hd
    rcases data with _ | url
    · simp only [transcribe_youtube_endpoint, List.not_mem_nil] at hd
    · by_cases hu : url = ""
      · subst hu
        simp [transcribe_youtube_endpoint] at hd
      · by_cases hm : youtubeURLMatches url = true
        · rcases hdl : env.acq.dlResult with e | ext
          · exact fallback_cleanup env url s0 e (mkdtemp s0).2 (mkdtemp_snd_dirs s0)
              (mkdtemp_snd_nextId s0) (download_err env.acq url s0 e hdl) hu hm d hd
          · by_cases hex : pathExists (dlStaged env.acq s0 ext)
                (downloadedPath s0.nextId ext) = true
            · -- direct download success: the endpoint's finally block
              -- removes the single created directory.
              have hres := download_ok_exists env.acq url s0 ext hdl hex
              have hnm : markerStr.isPrefixOf (downloadedPath s0.nextId ext) = false := by
                rw [show downloadedPath s0.nextId ext =
                    tmpDirName s0.nextId ++ ('/' :: (audioBase ++ ext.data)) from rfl]
                exact marker_not_tmp _ _
              have hdn : dirname (downloadedPath s0.nextId ext) = tmpDirName s0.nextId := by
                rw [show downloadedPath s0.nextId ext =
                    tmpDirName s0.nextId ++ ('/' :: (audioBase ++ ext.data)) from rfl]
                apply dirname_tmpDir
                intro x hx
                rcases List.mem_append.mp hx with h | h
                · exact (by decide : ∀ c ∈ audioBase, (c == '/') = false) x h
                · exact hext ext hdl x h
              have hexd : pathExists (dlStaged env.acq s0 ext) (tmpDirName s0.nextId)
                  = true := by
                simp [pathExists, pathExistsDir, dlStaged_dirs]
              have hcontD : (dlStaged env.acq s0 ext).dirs.contains (tmpDirName s0.nextId)
                  = true := by
                simp [dlStaged_dirs]
              have hfin : ytFinally (some (downloadedPath s0.nextId ext))
                  (dlStaged env.acq s0 ext)
                  = rmtree (dlStaged env.acq s0 ext) (tmpDirName s0.nextId) := by
                unfold ytFinally
                simp only [hnm, Bool.false_eq_true, if_false, hex, if_true, hdn,
                  tmpDirName_isEmpty, Bool.not_false, hexd, Bool.and_self]
              rcases htr : env.transcribeResult with et | tt <;>
                · simp only [transcribe_youtube_endpoint, if_neg hu, hm, Bool.not_true,
                    Bool.false_eq_true, if_false, hres, hnm, htr,
                    List.mem_singleton] at hd ⊢
                  subst hd
                  rw [hfin]
                  unfold pathExistsDir
                  rw [rmtree_dirs_of_contains _ _ hcontD]
                  exact contains_filterNe _ _
            · have hex' : pathExists (dlStaged env.acq s0 ext)
                  (downloadedPath s0.nextId ext) = false := by simpa using hex
              exact fallback_cleanup env url s0
                "Downloaded file not found after extraction" (dlStaged env.acq s0 ext)
                (dlStaged_dirs _ _ _) (dlStaged_nextId _ _ _)
                (download_ok_missing env.acq url s0 ext hdl hex') hu hm d hd
        · have hm' : youtubeURLMatches url = false := by simpa using hm
          simp [transcribe_youtube_endpoint, hu, hm'] at hd

/-- Witness for C4 at concrete runs of both endpoints. -/
theorem claim_C4_witness :
    pathExistsFile (transcribe_endpoint (.ok "T") "a.mp3" "DATA" emptyFS).2.1
      (transcribe_endpoint (.ok "T") "a.mp3" "DATA" emptyFS).2.2 = false ∧
    ∀ d ∈ (transcribe_youtube_endpoint ⟨⟨.ok "m4a", true, wCaptions, wNtf⟩, .ok "T"⟩
        (some wUrl) emptyFS).createdDirs,
      pathExistsDir (transcribe_youtube_endpoint ⟨⟨.ok "m4a", true, wCaptions, wNtf⟩, .ok "T"⟩
        (some wUrl) emptyFS).fs d = false :=
  ⟨claim_C4.1 (.ok "T") "a.mp3" "DATA" emptyFS,
   claim_C4.2 ⟨⟨.ok "m4a", true, wCaptions, wNtf⟩, .ok "T"⟩ (some wUrl) emptyFS
     (by intro ext hx; injection hx with h; subst h; decide)⟩


end Vozi
